import Mathlib

/-!
Shallow embedding of the `line-sheets-bot` message pipeline
(`backend/src/services/gemini.ts`, `processor.ts`, `core_processor.ts`).

Modelling conventions:
* JavaScript exceptions of external calls (database queries, the Google
  Sheets API, the Gemini remote call) are modelled as `Except String α`
  values supplied by an environment record; `JSON.parse` of the cleaned
  remote text is modelled by its outcome `Option ParsedAnalysis`
  (`none` = the parse threw).
* JS strings are modelled as Lean `String`s; `str.length` is the
  character count (JS counts UTF-16 units — the difference only shows on
  astral-plane characters, which no claim exercises).
* JS objects used as string-keyed maps are modelled as association lists
  in key-insertion order; re-assigning an existing key keeps its
  original position, as JS objects do.
-/

set_option autoImplicit false

namespace LineSheetsBot

/-- Truthiness of a JS string (`""` is falsy): `v || d` on an optional
string field of a parsed JSON object. -/
def jsOrStr (v : Option String) (d : String) : String :=
  match v with
  | none => d
  | some s => if s = "" then d else s

/-- Truthiness of a JS number (`0` is falsy): `v || d` on an optional
numeric field of a parsed JSON object. -/
def jsOrInt (v : Option Int) (d : Int) : Int :=
  match v with
  | none => d
  | some n => if n = 0 then d else n

/-- Result type of the Gemini analysis service, from the `GeminiAnalysis`
interface in `gemini.ts`. Optional interface fields are `Option`s. -/
structure GeminiAnalysis where
  sentiment : String
  urgency : String
  importance : String
  category : String
  keywords : List String
  summary : String
  action_required : String
  confidence_score : Int
  business_intent : Option String
  suggested_response : Option String
  processing_time : Option Nat
  model_used : Option String
  deriving DecidableEq, Repr

/-- Shape of the JSON object produced by `JSON.parse` on the cleaned
remote response text: every field the code reads, each possibly absent
(JS `undefined` and `null` are both `none`). `keywords` is `none` when
the field is absent or not an array (`Array.isArray` check). -/
structure ParsedAnalysis where
  sentiment : Option String
  urgency : Option String
  importance : Option String
  category : Option String
  keywords : Option (List String)
  summary : Option String
  action_required : Option String
  confidence_score : Option Int
  business_intent : Option String
  suggested_response : Option String
  deriving DecidableEq, Repr

/-- The `JSON.parse`-everything-absent object, for building concrete
parse outcomes. -/
def emptyParsed : ParsedAnalysis :=
  { sentiment := none, urgency := none, importance := none,
    category := none, keywords := none, summary := none,
    action_required := none, confidence_score := none,
    business_intent := none, suggested_response := none }

/-- Embedding of `GeminiAnalysisService.parseAnalysisResult`.
The argument is the outcome of `JSON.parse` on the cleaned response text
(`none` = the parse threw, taking the catch branch). The source returns
an object without `processing_time` / `model_used` (they are added by
the caller); here those fields are `none` and overridden by the caller. -/
def parseAnalysisResult (parsed : Option ParsedAnalysis) : GeminiAnalysis :=
  match parsed with
  | some p =>
      { sentiment := jsOrStr p.sentiment "neutral",
        urgency := jsOrStr p.urgency "medium",
        importance := jsOrStr p.importance "medium",
        category := jsOrStr p.category "general",
        keywords := p.keywords.getD [],
        summary := jsOrStr p.summary "メッセージを受信しました",
        action_required := jsOrStr p.action_required "none",
        confidence_score := min 100 (max 0 (jsOrInt p.confidence_score 70)),
        business_intent := p.business_intent,
        suggested_response := p.suggested_response,
        processing_time := none, model_used := none }
  | none =>
      { sentiment := "neutral", urgency := "medium", importance := "medium",
        category := "general", keywords := [],
        summary := "メッセージを受信しました", action_required := "none",
        confidence_score := 50,
        business_intent := some "分析に失敗しました",
        suggested_response := some "手動で確認してください",
        processing_time := none, model_used := none }

/-- Embedding of `messageText.substring(0, n)`: the first `n` characters. -/
def jsSubstringTo (s : String) (n : Nat) : String :=
  String.mk (s.toList.take n)

/-- Embedding of `GeminiAnalysisService.getFallbackAnalysis`. -/
def getFallbackAnalysis (messageText : String) (processingTime : Nat) :
    GeminiAnalysis :=
  { sentiment := "neutral", urgency := "medium", importance := "medium",
    category := "general", keywords := [],
    summary := if messageText.length > 50
               then jsSubstringTo messageText 47 ++ "..."
               else messageText,
    action_required := "none", confidence_score := 30,
    business_intent := some "AI分析に失敗したため、手動確認が必要です",
    suggested_response := some "詳細な分析のため、管理者に連絡してください",
    processing_time := some processingTime, model_used := some "fallback" }

/-- Environment of one `analyzeMessage` call: the outcome of the remote
Gemini interaction. `Except.error` = the call (or response retrieval)
threw; `Except.ok o` = a response text arrived and `o` is the outcome of
cleaning + `JSON.parse` on it (`none` = unparseable text). `elapsed` is
the wall-clock time `Date.now() - startTime` recorded at the end. -/
structure GeminiEnv where
  remote : Except String (Option ParsedAnalysis)
  elapsed : Nat

/-- Embedding of `GeminiAnalysisService.analyzeMessage`. On a received
response the parse result is stamped with `processing_time` and
`model_used = "gemini-pro"`; if the call itself threw, the catch branch
returns `getFallbackAnalysis`. Note the parse-failure branch is handled
inside `parseAnalysisResult` and never reaches the catch here. -/
def analyzeMessage (env : GeminiEnv) (messageText : String) : GeminiAnalysis :=
  match env.remote with
  | .ok parsed =>
      { parseAnalysisResult parsed with
          processing_time := some env.elapsed,
          model_used := some "gemini-pro" }
  | .error _ => getFallbackAnalysis messageText env.elapsed

/-- One input message of `batchAnalyze`: `\x7b id, content \x7d`. -/
structure BatchMessage where
  id : Nat
  content : String
  deriving DecidableEq, Repr

/-- One output entry of `batchAnalyze`:
`\x7b messageId, analysis, error? \x7d`. -/
structure BatchResult where
  messageId : Nat
  analysis : Option GeminiAnalysis
  error : Option String
  deriving DecidableEq, Repr

/-- Chunk splitting of `batchAnalyze` (`messages.slice(i, i + concurrency)`
for `i = 0, c, 2c, ...`), written with the list length as fuel so the
function is total; the source loop `i += concurrency` diverges when the
concurrency is `0`, and every claim assumes a concurrency of at least 1,
under which the fuel is never exhausted. -/
def chunksOfAux {α : Type} (c : Nat) : Nat → List α → List (List α)
  | 0, _ => []
  | _, [] => []
  | fuel + 1, l => l.take c :: chunksOfAux c fuel (l.drop c)

/-- Consecutive chunks of size at most `c`, as built by `batchAnalyze`. -/
def chunksOf {α : Type} (c : Nat) (l : List α) : List (List α) :=
  chunksOfAux c l.length l

/-- The per-item body of `batchAnalyze`: awaiting
`this.analyzeMessage(message.content)` under a try/catch. The awaited
call is modelled by an oracle giving each message's outcome (in the shipped
program `analyzeMessage` never rejects, so the `.error` branch is written
for robustness; the claim quantifies over both outcomes). -/
def batchItem (oracle : BatchMessage → Except String GeminiAnalysis)
    (m : BatchMessage) : BatchResult :=
  match oracle m with
  | .ok a => { messageId := m.id, analysis := some a, error := none }
  | .error e => { messageId := m.id, analysis := none, error := some e }

/-- Embedding of `GeminiAnalysisService.batchAnalyze`: split into chunks
of size `concurrency`, run every chunk's items (concurrently in the
source; `Promise.all` preserves input order, so the result is the
in-order list of per-item results), concatenate the chunk results. The
inter-chunk delay has no effect on the returned value. -/
def batchAnalyze (oracle : BatchMessage → Except String GeminiAnalysis)
    (messages : List BatchMessage) (concurrency : Nat) : List BatchResult :=
  ((chunksOf concurrency messages).map (fun chunk =>
      chunk.map (batchItem oracle))).flatten

/-! Embedding of `processor.ts` (`MessageProcessor`). -/

/-- Values held in the extracted-data object: `parseValue` produces a JS
number from an all-digit string (tagged `int` here; `parseInt` is exact
below 2^53, modelled over unbounded naturals), a JS number from a
`digits.digits` string (tagged `float`, kept as integer part and
fraction-digit string: `float 3 "14"` is the number 3.14), and leaves
any other string a string. -/
inductive EValue where
  | int (n : Nat)
  | float (ip : Nat) (frac : String)
  | str (s : String)
  deriving DecidableEq, Repr

/-- Characters removed by JS `trim` and matched by `\s` (the common
cases: space, tab, LF, CR, vertical tab, form feed, NBSP, ideographic
space U+3000; the remaining exotic Unicode space characters are not
exercised by any claim). -/
def isJsSpace (c : Char) : Bool :=
  c = ' ' || c = '\t' || c = '\n' || c = '\r' ||
  c.toNat = 11 || c.toNat = 12 || c.toNat = 160 || c.toNat = 12288

/-- JS `String.prototype.trim`. -/
def jsTrim (s : String) : String :=
  String.mk (((s.toList.dropWhile isJsSpace).reverse.dropWhile isJsSpace).reverse)

/-- JS `replace(/\s+/g, ' ')`: collapse every whitespace run to a single
space. The Boolean argument records whether the previous character was
part of a whitespace run. -/
def collapseWsAux : List Char → Bool → List Char
  | [], _ => []
  | c :: rest, prevSpace =>
      if isJsSpace c then
        if prevSpace then collapseWsAux rest true
        else ' ' :: collapseWsAux rest true
      else c :: collapseWsAux rest false

/-- Collapse whitespace runs in a string to single spaces. -/
def collapseWs (s : String) : String :=
  String.mk (collapseWsAux s.toList false)

/-- Split a character list at a separator character
(JS `line.split(separator)` for a one-character separator). -/
def splitOnChar (sep : Char) : List Char → List Char → List (List Char)
  | [], acc => [acc.reverse]
  | c :: rest, acc =>
      if c = sep then acc.reverse :: splitOnChar sep rest []
      else splitOnChar sep rest (c :: acc)

/-- Split at `/\r?\n/`: a LF, optionally preceded by CR, ends a line; a
lone CR does not. -/
def splitLinesAux : List Char → List Char → List String
  | [], acc => [String.mk acc.reverse]
  | '\r' :: '\n' :: rest, acc => String.mk acc.reverse :: splitLinesAux rest []
  | '\n' :: rest, acc => String.mk acc.reverse :: splitLinesAux rest []
  | c :: rest, acc => splitLinesAux rest (c :: acc)

/-- JS `text.split(/\r?\n/)`. -/
def splitLines (s : String) : List String :=
  splitLinesAux s.toList []

/-- Occurrences of a character in a string
(`(text.match(/c/g) || []).length` for a one-character pattern). -/
def countChar (c : Char) (s : String) : Nat :=
  (s.toList.filter (fun x => x = c)).length

/-- Selection step of `MessageProcessor.detectSeparator`, on the three
counts in `Object.entries` order (full-width colon, half-width colon,
equals sign): the source stable-sorts the entries by descending count
and takes the head, i.e. the first entry holding the maximal count,
computed here by a first-strict-improvement fold; entries with count 0
lose to the default. -/
def selectSeparator (a b c : Nat) : Char :=
  let mostUsed := [('：', a), (':', b), ('=', c)].foldl
      (fun best e => if e.2 > best.2 then e else best) ('：', 0)
  if mostUsed.2 > 0 then mostUsed.1 else '：'

/-- Embedding of `MessageProcessor.detectSeparator`: count each
candidate separator over the whole text and select. -/
def detectSeparator (text : String) : Char :=
  selectSeparator (countChar '：' text) (countChar ':' text)
    (countChar '=' text)

/-- Nonempty all-digit string: the test `/^\d+$/.test(value)`. -/
def isAllDigits (s : String) : Bool :=
  s.toList ≠ [] && s.toList.all Char.isDigit

/-- The test `/^\d+\.\d+$/.test(value)`: one dot, nonempty digit runs on
both sides. -/
def isDecimalShape (s : String) : Bool :=
  match splitOnChar '.' s.toList [] with
  | [ip, fp] => ip ≠ [] && ip.all Char.isDigit && fp ≠ [] && fp.all Char.isDigit
  | _ => false

/-- Numeric value of a digit list. -/
def natOfDigits (l : List Char) : Nat :=
  l.foldl (fun n c => n * 10 + (c.toNat - 48)) 0

/-- Embedding of `MessageProcessor.parseValue`. -/
def parseValue (value : String) : EValue :=
  if isAllDigits value then .int (natOfDigits value.toList)
  else if isDecimalShape value then
    match splitOnChar '.' value.toList [] with
    | [ip, fp] => .float (natOfDigits ip) (String.mk fp)
    | _ => .str value
  else .str value

/-- Insertion into the JS-object model: re-assigning an existing key
replaces its value in place, a new key is appended
(JS object key-insertion order). -/
def insertKV (l : List (String × EValue)) (k : String) (v : EValue) :
    List (String × EValue) :=
  match l with
  | [] => [(k, v)]
  | (k0, v0) :: rest =>
      if k0 = k then (k0, v) :: rest else (k0, v0) :: insertKV rest k v

/-- Embedding of `MessageProcessor.extractFromLine`: split the line at
the separator; with at least two parts, the key is the first part
trimmed, stripped of all whitespace (including U+3000) and lower-cased,
the value is the remaining parts rejoined with the separator and
trimmed; a line yields its pair only when both are nonempty. -/
def extractFromLine (line : String) (sep : Char) : Option (String × EValue) :=
  let parts := splitOnChar sep line.toList []
  if parts.length ≥ 2 then
    let key := String.mk
      ((((jsTrim (String.mk (parts.headI))).toList).filter
          (fun c => !isJsSpace c)).map Char.toLower)
    let value := jsTrim (String.intercalate (String.mk [sep])
      (parts.tail.map String.mk))
    if key ≠ "" && value ≠ "" then some (key, parseValue value) else none
  else none

/-- Embedding of `MessageProcessor.cleanExtractedData`: drop entries
whose value is the empty string (`null`/`undefined` cannot arise in this
model), trim string values and collapse their inner whitespace runs.
Keys of the input are unique, so rebuilding by appending preserves the
object's order. -/
def cleanExtractedData (l : List (String × EValue)) : List (String × EValue) :=
  l.foldl (fun acc kv =>
    match kv.2 with
    | .str s => if s = "" then acc
                else acc ++ [(kv.1, .str (collapseWs (jsTrim s)))]
    | v => acc ++ [(kv.1, v)]) []

/-- Embedding of `MessageProcessor.extractBasicData`: detect the
separator, split into trimmed nonempty lines, extract each line's pair
into the object (later duplicate keys overwrite), clean up. The body is
pure, so the source's catch branch (`\x7b error, originalText \x7d`) is
unreachable in this model. -/
def extractBasicData (messageText : String) : List (String × EValue) :=
  let separator := detectSeparator messageText
  let lines := ((splitLines messageText).map jsTrim).filter (fun l => l ≠ "")
  let extractedData := lines.foldl (fun acc line =>
    match extractFromLine line separator with
    | some (k, v) => insertKV acc k v
    | none => acc) []
  cleanExtractedData extractedData

/-! Embedding of `core_processor.ts` (`CoreProcessor`). -/

/-- The `ProcessingResult` type of `core_processor.ts`. -/
structure ProcessingResult where
  success : Bool
  messageId : Nat
  rowNumber : Option Nat
  error : Option String
  processingTime : Nat
  deriving DecidableEq, Repr

/-- Database writes issued through `runQuery` during one pipeline run:
the INSERT of `saveMessage` and the UPDATE of `updateMessageStatus`. -/
inductive DbOp where
  | insert (content senderId status : String)
  | updateStatus (id : Nat) (status : String) (sheetRow : Option Nat)
  deriving DecidableEq, Repr

/-- Environment of one `processLINEMessage` run: the outcome of every
external interaction, in program order. `configOk` is the
`this.config && this.sheetsClient` guard; `save` is the INSERT plus
`last_insert_rowid()` of `saveMessage` (its value is the new record id);
`gemini` drives `geminiService.analyzeMessage` (which catches all its
errors, so the orchestrator's local try/catch around the AI stage can
never fire); `sheetsRead` is `values.get` on the `A:A` range (the
`values` array is absent on an empty sheet); `sheetsWrite` is
`values.update`; `update` is the UPDATE of `updateMessageStatus`;
`timestamp` is the formatted `new Date()` of `prepareSheetData`;
`elapsed` is `Date.now() - startTime` at return. -/
structure CoreEnv where
  configOk : Bool
  enableAI : Bool
  save : Except String Nat
  gemini : GeminiEnv
  sheetsRead : Except String (Option (List (List String)))
  sheetsWrite : Except String Unit
  update : Except String Unit
  timestamp : String
  elapsed : Nat

/-- Truthiness of a JS number held as a row count:
`response.data.values?.length || 1`. -/
def jsOrNat (v : Option Nat) (d : Nat) : Nat :=
  match v with
  | none => d
  | some n => if n = 0 then d else n

/-- The row computation of `sendToSheets`:
`(response.data.values?.length || 1) + 1`. -/
def nextRowOf (values : Option (List (List String))) : Nat :=
  jsOrNat (values.map List.length) 1 + 1

/-- Truthiness of an extracted value (`0`, `0.0` and `""` are falsy). -/
def jsFalsyValue : EValue → Bool
  | .int n => n = 0
  | .float ip frac => ip = 0 && frac.toList.all (fun c => c = '0')
  | .str s => s = ""

/-- First value stored under a key of the extracted-data object
(keys are unique, so this is JS property access). -/
def lookupKV (l : List (String × EValue)) (k : String) : Option EValue :=
  match l with
  | [] => none
  | (k0, v0) :: rest => if k0 = k then some v0 else lookupKV rest k

/-- JS `extractedData.field || ''`. -/
def fieldOrEmpty (l : List (String × EValue)) (k : String) : EValue :=
  match lookupKV l k with
  | some v => if jsFalsyValue v then .str "" else v
  | none => .str ""

/-- JS `analysis?.field || ''` for the string fields of the analysis. -/
def analysisFieldOrEmpty (analysis : Option GeminiAnalysis)
    (f : GeminiAnalysis → String) : EValue :=
  match analysis with
  | some a => .str (f a)
  | none => .str ""

/-- Rendering of an extracted value inside `JSON.stringify` output
(string escaping elided — no claim reads this column). -/
def jsonOfValue : EValue → String
  | .int n => toString n
  | .float ip frac => toString ip ++ "." ++ frac
  | .str s => "\"" ++ s ++ "\""

/-- JS `JSON.stringify(extractedData)` on the extracted-data object. -/
def jsonStringifyData (l : List (String × EValue)) : String :=
  "\x7b" ++ String.intercalate ","
      (l.map (fun kv => "\"" ++ kv.1 ++ "\":" ++ jsonOfValue kv.2)) ++ "\x7d"

/-- Embedding of `CoreProcessor.prepareSheetData`: the fixed ten-column
row (timestamp, original text, name, email, phone, company, sentiment,
urgency, category, full extracted data as JSON). -/
def prepareSheetData (extractedData : List (String × EValue))
    (analysis : Option GeminiAnalysis) (originalText timestamp : String) :
    List EValue :=
  [ .str timestamp,
    .str originalText,
    fieldOrEmpty extractedData "name",
    fieldOrEmpty extractedData "email",
    fieldOrEmpty extractedData "phone",
    fieldOrEmpty extractedData "company",
    analysisFieldOrEmpty analysis GeminiAnalysis.sentiment,
    analysisFieldOrEmpty analysis GeminiAnalysis.urgency,
    analysisFieldOrEmpty analysis GeminiAnalysis.category,
    .str (jsonStringifyData extractedData) ]

/-- Observable behaviour of one `processLINEMessage` run: the returned
result, the database writes issued, and the row written to the sheet
(row number and row data), when the write went through. -/
structure CoreRun where
  result : ProcessingResult
  dbOps : List DbOp
  sheetWrite : Option (Nat × List EValue)
  deriving DecidableEq, Repr

/-- The catch branch of `processLINEMessage`:
`\x7b success: false, messageId: 0, error, processingTime \x7d`. -/
def failResult (e : String) (t : Nat) : ProcessingResult :=
  { success := false, messageId := 0, rowNumber := none,
    error := some e, processingTime := t }

/-- Embedding of `CoreProcessor.processLINEMessage`: config guard, save
to DB, extraction, optional AI analysis (total — `analyzeMessage`
absorbs its own failures), sheet-row preparation, `sendToSheets` (read
the `A:A` extent, compute the next row, write), status update to
`completed`; the top-level catch turns any thrown stage error into a
`failResult`, issuing no further database writes. -/
def processLINEMessage (env : CoreEnv) (messageText senderId : String) :
    CoreRun :=
  if !env.configOk then
    { result := failResult "システム設定が不完全です" env.elapsed,
      dbOps := [], sheetWrite := none }
  else
    match env.save with
    | .error e => { result := failResult e env.elapsed, dbOps := [],
                    sheetWrite := none }
    | .ok messageId =>
      let ops := [DbOp.insert messageText senderId "processing"]
      let extractedData := extractBasicData messageText
      let analysis : Option GeminiAnalysis :=
        if env.enableAI then some (analyzeMessage env.gemini messageText)
        else none
      let sheetData := prepareSheetData extractedData analysis messageText
        env.timestamp
      match env.sheetsRead with
      | .error e => { result := failResult e env.elapsed, dbOps := ops,
                      sheetWrite := none }
      | .ok values =>
        let rowNumber := nextRowOf values
        match env.sheetsWrite with
        | .error e => { result := failResult e env.elapsed, dbOps := ops,
                        sheetWrite := none }
        | .ok _ =>
          match env.update with
          | .error e => { result := failResult e env.elapsed, dbOps := ops,
                          sheetWrite := some (rowNumber, sheetData) }
          | .ok _ =>
            { result := { success := true, messageId := messageId,
                          rowNumber := some rowNumber, error := none,
                          processingTime := env.elapsed },
              dbOps := ops ++ [DbOp.updateStatus messageId "completed"
                (some rowNumber)],
              sheetWrite := some (rowNumber, sheetData) }

/-- Status of the record created by this run: the INSERT sets it, a
later UPDATE overwrites it; `none` when no record was created. -/
def finalStatus (ops : List DbOp) : Option String :=
  ops.foldl (fun _st op =>
    match op with
    | .insert _ _ s => some s
    | .updateStatus _ s _ => some s) none

/-- Whether an external call's outcome is a thrown error. -/
def isErrE {α : Type} (x : Except String α) : Bool :=
  match x with
  | .error _ => true
  | .ok _ => false

/-- A stage failure that propagates to the orchestrator's catch:
missing configuration, a persistence failure, a sheet read/write
failure, or a status-update failure. (Extraction is pure and the AI
stage absorbs its own failures, so neither can propagate.) -/
def stageFails (env : CoreEnv) : Bool :=
  !env.configOk || isErrE env.save || isErrE env.sheetsRead ||
  isErrE env.sheetsWrite || isErrE env.update

/-- A propagating stage failure occurring after `saveMessage` returned a
record id. -/
def afterSaveFails (env : CoreEnv) : Bool :=
  isErrE env.sheetsRead || isErrE env.sheetsWrite || isErrE env.update

/-! Concrete sample inputs used to evaluate the embedded operations. -/

/-- Sample per-item outcome function for the batch: item 2's analysis
rejects, the others resolve. -/
def sampleOracle (m : BatchMessage) : Except String GeminiAnalysis :=
  if m.id = 2 then .error "boom" else .ok (getFallbackAnalysis m.content 0)

/-- Sample three-message batch. -/
def sampleBatch : List BatchMessage :=
  [{ id := 1, content := "a" }, { id := 2, content := "b" },
   { id := 3, content := "c" }]

/-- Environment of a run in which the message is saved (record id 42)
and the sheet write is then rejected by the remote service. -/
def envSheetsFail : CoreEnv :=
  { configOk := true, enableAI := false, save := .ok 42,
    gemini := { remote := .error "unused", elapsed := 0 },
    sheetsRead := .ok (some [["header"]]),
    sheetsWrite := .error "sheets write rejected",
    update := .ok (), timestamp := "2026-10-11 00:00:00", elapsed := 12 }

/-- Environment of a run with the configuration guard failing. -/
def envNoConfig : CoreEnv :=
  { configOk := false, enableAI := false, save := .ok 1,
    gemini := { remote := .error "unused", elapsed := 0 },
    sheetsRead := .ok none, sheetsWrite := .ok (), update := .ok (),
    timestamp := "2026-10-11 00:00:00", elapsed := 3 }

/-! Helper lemmas. -/

/-- Flattening the chunk-wise map gives the map of the whole list, as
long as the fuel covers the list and the chunk size is positive. -/
theorem chunksOfAux_flatten_map {α β : Type} (f : α → β) (c : Nat)
    (hc : 1 ≤ c) :
    ∀ (fuel : Nat) (l : List α), l.length ≤ fuel →
      ((chunksOfAux c fuel l).map (List.map f)).flatten = l.map f := by
  intro fuel
  induction fuel with
  | zero =>
      intro l hl
      have : l = [] := List.eq_nil_of_length_eq_zero (Nat.le_zero.mp hl)
      subst this
      simp [chunksOfAux]
  | succ n ih =>
      intro l hl
      cases l with
      | nil => simp [chunksOfAux]
      | cons x xs =>
          have hdrop : ((x :: xs).drop c).length ≤ n := by
            simp only [List.length_drop, List.length_cons]
            simp only [List.length_cons] at hl
            omega
          calc ((chunksOfAux c (n + 1) (x :: xs)).map (List.map f)).flatten
              = ((x :: xs).take c).map f ++
                ((chunksOfAux c n ((x :: xs).drop c)).map (List.map f)).flatten := by
                simp [chunksOfAux]
            _ = ((x :: xs).take c).map f ++ ((x :: xs).drop c).map f := by
                rw [ih _ hdrop]
            _ = (x :: xs).map f := by
                rw [← List.map_append, List.take_append_drop]

/-- Every chunk produced by `chunksOfAux` has size at most `c`. -/
theorem chunksOfAux_size_le {α : Type} (c : Nat) :
    ∀ (fuel : Nat) (l : List α) (chunk : List α),
      chunk ∈ chunksOfAux c fuel l → chunk.length ≤ c := by
  intro fuel
  induction fuel with
  | zero => intro l chunk h; simp [chunksOfAux] at h
  | succ n ih =>
      intro l chunk h
      cases l with
      | nil => simp [chunksOfAux] at h
      | cons x xs =>
          simp only [chunksOfAux, List.mem_cons] at h
          rcases h with h | h
          · subst h
            simp [Nat.min_le_left]
          · exact ih _ _ h

/-- The message id of a per-item batch result is the input message's id. -/
theorem batchItem_messageId (oracle : BatchMessage → Except String GeminiAnalysis)
    (m : BatchMessage) : (batchItem oracle m).messageId = m.id := by
  unfold batchItem
  cases oracle m <;> rfl

/-- C3: the sheet-append row computed by `sendToSheets` is the
previously read row count plus one whenever the read column range holds
at least one row, and an empty read extent (the `values` array absent,
or present and empty) yields row number 2. -/
theorem sendToSheets_nextRow (values : List (List String))
    (h : values ≠ []) :
    nextRowOf (some values) = values.length + 1 ∧
    nextRowOf none = 2 ∧ nextRowOf (some []) = 2 := by
  refine ⟨?_, rfl, rfl⟩
  have hlen : values.length ≠ 0 := by
    intro h0
    exact h (List.eq_nil_of_length_eq_zero h0)
  simp [nextRowOf, jsOrNat, hlen]

/-- C3 witness: a one-row sheet gives row 2. -/
theorem sendToSheets_nextRow_witness :
    ([["header"]] : List (List String)) ≠ [] ∧
    nextRowOf (some [["header"]]) = 2 :=
  ⟨by decide, (sendToSheets_nextRow [["header"]] (by decide)).1⟩

/-- C4 counterexample: on a malformed remote response (the parse of the
response text throws), `analyzeMessage` does NOT return the fallback
marker nor a confidence in [0, 30]: it tags `model_used = "gemini-pro"`
and confidence 50, because the parse failure is absorbed inside
`parseAnalysisResult` and only a failure of the call itself reaches the
fallback. -/
theorem analyzeMessage_malformed_not_fallback :
    (analyzeMessage { remote := .ok none, elapsed := 5 } "hello").model_used
        ≠ some "fallback" ∧
    ¬ (analyzeMessage { remote := .ok none, elapsed := 5 } "hello").confidence_score
        ≤ 30 ∧
    (analyzeMessage { remote := .ok none, elapsed := 5 } "hello").model_used
        = some "gemini-pro" := by
  decide

/-- C4 amended: a remote response whose text cannot be parsed as the
expected JSON object yields a result with `confidence_score = 50` and
`model_used = "gemini-pro"` (the parse failure is handled inside
`parseAnalysisResult`); the 0–30 confidence with the distinct
`"fallback"` marker arises only when the remote call itself fails. -/
theorem analyzeMessage_parse_failure (env : GeminiEnv) (text : String)
    (h : env.remote = .ok none) :
    (analyzeMessage env text).confidence_score = 50 ∧
    (analyzeMessage env text).model_used = some "gemini-pro" ∧
    (analyzeMessage env text).processing_time = some env.elapsed := by
  obtain ⟨remote, elapsed⟩ := env
  simp only at h
  subst h
  simp [analyzeMessage, parseAnalysisResult]

/-- C4 witness: a concrete unparseable response. -/
theorem analyzeMessage_parse_failure_witness :
    (({ remote := .ok none, elapsed := 9 } : GeminiEnv).remote
        = .ok none) ∧
    (analyzeMessage { remote := .ok none, elapsed := 9 } "text").confidence_score
        = 50 :=
  ⟨rfl, (analyzeMessage_parse_failure { remote := .ok none, elapsed := 9 }
      "text" rfl).1⟩

/-- C5: when the remote call itself fails, `analyzeMessage` returns the
fully populated fallback result — neutral/medium defaults, confidence
30, the `"fallback"` model marker, the elapsed time — whose summary is
the input itself when its length is at most 50 characters and the first
47 characters followed by an ellipsis otherwise. -/
theorem analyzeMessage_call_failure (env : GeminiEnv) (text : String)
    (h : isErrE env.remote = true) :
    (analyzeMessage env text).sentiment = "neutral" ∧
    (analyzeMessage env text).urgency = "medium" ∧
    (analyzeMessage env text).importance = "medium" ∧
    (analyzeMessage env text).category = "general" ∧
    (analyzeMessage env text).keywords = [] ∧
    (analyzeMessage env text).action_required = "none" ∧
    (analyzeMessage env text).confidence_score = 30 ∧
    (analyzeMessage env text).model_used = some "fallback" ∧
    (analyzeMessage env text).processing_time = some env.elapsed ∧
    (analyzeMessage env text).business_intent.isSome = true ∧
    (analyzeMessage env text).suggested_response.isSome = true ∧
    (text.length ≤ 50 → (analyzeMessage env text).summary = text) ∧
    (50 < text.length →
      (analyzeMessage env text).summary = jsSubstringTo text 47 ++ "...") := by
  obtain ⟨remote, elapsed⟩ := env
  cases remote with
  | ok v => simp [isErrE] at h
  | error e =>
      refine ⟨rfl, rfl, rfl, rfl, rfl, rfl, rfl, rfl, rfl, rfl, rfl, ?_, ?_⟩
      · intro hle
        have : ¬ text.length > 50 := by omega
        simp [analyzeMessage, getFallbackAnalysis, this]
      · intro hgt
        simp [analyzeMessage, getFallbackAnalysis, hgt]

/-- C5 witness: a failed call on a 60-character input yields the
truncated fallback summary. -/
theorem analyzeMessage_call_failure_witness :
    isErrE (({ remote := .error "socket hang up", elapsed := 7 } :
        GeminiEnv).remote) = true ∧
    50 < ("aaaaaaaaaaaaaaaaaaaaaaaaaaaaaaaaaaaaaaaaaaaaaaaaaaaaaaaaaaaa" :
        String).length ∧
    (analyzeMessage { remote := .error "socket hang up", elapsed := 7 }
        "aaaaaaaaaaaaaaaaaaaaaaaaaaaaaaaaaaaaaaaaaaaaaaaaaaaaaaaaaaaa").summary
      = jsSubstringTo
          "aaaaaaaaaaaaaaaaaaaaaaaaaaaaaaaaaaaaaaaaaaaaaaaaaaaaaaaaaaaa" 47
        ++ "..." :=
  ⟨by decide, by decide,
    ((analyzeMessage_call_failure { remote := .error "socket hang up", elapsed := 7 }
        "aaaaaaaaaaaaaaaaaaaaaaaaaaaaaaaaaaaaaaaaaaaaaaaaaaaaaaaaaaaa"
        (by decide)).2.2.2.2.2.2.2.2.2.2.2.2 (by decide))⟩

/-- C10: on a successfully parsed response, a `confidence_score` of `0`
(or an absent/null one — both falsy in JS) is replaced by the default 70
before clamping, so `parseAnalysisResult` never reports confidence 0 for
a response that explicitly reports zero confidence. -/
theorem parseAnalysisResult_zero_confidence (p : ParsedAnalysis)
    (h : p.confidence_score = some 0 ∨ p.confidence_score = none) :
    (parseAnalysisResult (some p)).confidence_score = 70 ∧
    (parseAnalysisResult (some p)).confidence_score ≠ 0 := by
  rcases h with h | h <;>
    simp [parseAnalysisResult, jsOrInt, h]

/-- Closed-form case analysis of the separator selection: the first
entry of the fixed enumeration whose count is maximal and positive wins;
when every count is 0, the full-width colon is the default. -/
theorem selectSeparator_cases (a b c : Nat) :
    selectSeparator a b c =
      if 0 < a ∧ b ≤ a ∧ c ≤ a then '：'
      else if 0 < b ∧ a < b ∧ c ≤ b then ':'
      else if 0 < c ∧ a < c ∧ b < c then '='
      else '：' := by
  unfold selectSeparator
  simp only [List.foldl_cons, List.foldl_nil]
  split_ifs <;> simp_all <;> omega

/-- C10 witness: an explicit zero confidence comes back as 70. -/
theorem parseAnalysisResult_zero_confidence_witness :
    ({ emptyParsed with confidence_score := some 0 } :
        ParsedAnalysis).confidence_score = some 0 ∧
    (parseAnalysisResult (some { emptyParsed with
        confidence_score := some 0 })).confidence_score = 70 :=
  ⟨by decide, (parseAnalysisResult_zero_confidence
      { emptyParsed with confidence_score := some 0 } (Or.inl (by decide))).1⟩

/-- C6: separator detection counts the full-width colon, half-width
colon and equals sign over the whole text and selects one with the
highest count, defaulting to the full-width colon when none occur; on
the input `Name：Alice\nEmail：a@b.com`, the detected separator is the
full-width colon and extraction yields exactly
`name ↦ Alice, email ↦ a@b.com`. -/
theorem detectSeparator_extraction_example :
    (∀ text : String,
      (countChar '：' text = 0 ∧ countChar ':' text = 0 ∧
          countChar '=' text = 0 → detectSeparator text = '：') ∧
      (0 < max (countChar '：' text)
            (max (countChar ':' text) (countChar '=' text)) →
          countChar (detectSeparator text) text =
            max (countChar '：' text)
              (max (countChar ':' text) (countChar '=' text)))) ∧
    detectSeparator "Name：Alice\nEmail：a@b.com" = '：' ∧
    extractBasicData "Name：Alice\nEmail：a@b.com" =
      [("name", EValue.str "Alice"), ("email", EValue.str "a@b.com")] := by
  refine ⟨?_, by decide, by decide⟩
  intro text
  unfold detectSeparator
  rw [selectSeparator_cases]
  constructor
  · rintro ⟨h1, h2, h3⟩
    simp [h1, h2, h3]
  · intro hpos
    split_ifs <;> omega

/-- C6 witness: a text with no candidate separator defaults to the
full-width colon. -/
theorem detectSeparator_extraction_example_witness :
    countChar '：' "hello" = 0 ∧ countChar ':' "hello" = 0 ∧
    countChar '=' "hello" = 0 ∧ detectSeparator "hello" = '：' :=
  ⟨by decide, by decide, by decide,
    (detectSeparator_extraction_example.1 "hello").1
      ⟨by decide, by decide, by decide⟩⟩

/-- C9: separator-detection tie-breaking is deterministic, following
the fixed enumeration full-width colon, half-width colon, equals sign:
the full-width colon wins whenever its count is positive and not
exceeded by the others (ties included); the half-width colon wins when
it strictly beats the full-width colon and is not exceeded by the equals
sign; the equals sign wins only by strictly beating both. Extraction is
a function of the input text, so this makes it deterministic. -/
theorem detectSeparator_tiebreak (text : String) :
    (0 < countChar '：' text ∧
        countChar ':' text ≤ countChar '：' text ∧
        countChar '=' text ≤ countChar '：' text →
        detectSeparator text = '：') ∧
    (countChar '：' text < countChar ':' text ∧
        countChar '=' text ≤ countChar ':' text →
        detectSeparator text = ':') ∧
    (countChar '：' text < countChar '=' text ∧
        countChar ':' text < countChar '=' text →
        detectSeparator text = '=') := by
  unfold detectSeparator
  rw [selectSeparator_cases]
  refine ⟨?_, ?_, ?_⟩ <;> intro h <;> split_ifs <;>
    first | rfl | (exfalso; omega)

/-- C9 witness: in `a:b=c` the half-width colon and the equals sign tie
at one occurrence each and the half-width colon, earlier in the
enumeration, is chosen. -/
theorem detectSeparator_tiebreak_witness :
    countChar '：' "a:b=c" < countChar ':' "a:b=c" ∧
    countChar '=' "a:b=c" ≤ countChar ':' "a:b=c" ∧
    detectSeparator "a:b=c" = ':' :=
  ⟨by decide, by decide,
    (detectSeparator_tiebreak "a:b=c").2.1 ⟨by decide, by decide⟩⟩

/-- C7: value coercion — an extracted value matching `^\d+$` becomes an
integer, one matching `^\d+\.\d+$` becomes a floating-point number, and
any other value stays a string; end to end, `Count：42` yields the
integer 42, `Ratio：3.14` yields the float 3.14 (integer part 3,
fraction digits 14), and `City：Tokyo` yields the string `Tokyo`. -/
theorem parseValue_coercion :
    (∀ v : String, isAllDigits v = true →
        parseValue v = EValue.int (natOfDigits v.toList)) ∧
    (∀ v : String, isAllDigits v = false → isDecimalShape v = true →
        ∃ ip frac, parseValue v = EValue.float ip frac) ∧
    (∀ v : String, isAllDigits v = false → isDecimalShape v = false →
        parseValue v = EValue.str v) ∧
    extractBasicData "Count：42" = [("count", EValue.int 42)] ∧
    extractBasicData "Ratio：3.14" = [("ratio", EValue.float 3 "14")] ∧
    extractBasicData "City：Tokyo" = [("city", EValue.str "Tokyo")] := by
  refine ⟨?_, ?_, ?_, by decide, by decide, by decide⟩
  · intro v h
    simp [parseValue, h]
  · intro v h1 h2
    simp only [parseValue, h1, h2, Bool.false_eq_true, if_false, if_true]
    cases hs : splitOnChar '.' v.toList [] with
    | nil =>
        unfold isDecimalShape at h2
        rw [hs] at h2
        simp at h2
    | cons ip tail =>
        cases tail with
        | nil =>
            unfold isDecimalShape at h2
            rw [hs] at h2
            simp at h2
        | cons fp rest =>
            cases rest with
            | nil => exact ⟨natOfDigits ip, String.mk fp, by simp [hs]⟩
            | cons y ys =>
                unfold isDecimalShape at h2
                rw [hs] at h2
                simp at h2
  · intro v h1 h2
    simp [parseValue, h1, h2]

/-- C7 witness: the pure-digit value 42. -/
theorem parseValue_coercion_witness :
    isAllDigits "42" = true ∧
    parseValue "42" = EValue.int (natOfDigits "42".toList) :=
  ⟨by decide, parseValue_coercion.1 "42" (by decide)⟩

/-- C8: for every ordered message list and every concurrency limit of at
least 1, `batchAnalyze` partitions the input into consecutive chunks of
size at most the limit, returns exactly one result per input message in
input order (the whole output equals the per-item map, so each entry
depends on its own message only: one item's failure yields its error
entry and removes no other item's result), and the result ids match the
input ids in order. -/
theorem batchAnalyze_spec (oracle : BatchMessage → Except String GeminiAnalysis)
    (messages : List BatchMessage) (c : Nat) (h : 1 ≤ c) :
    batchAnalyze oracle messages c = messages.map (batchItem oracle) ∧
    (batchAnalyze oracle messages c).length = messages.length ∧
    (batchAnalyze oracle messages c).map BatchResult.messageId =
      messages.map BatchMessage.id ∧
    (∀ chunk ∈ chunksOf c messages, chunk.length ≤ c) ∧
    (chunksOf c messages).flatten = messages := by
  have hmain : batchAnalyze oracle messages c = messages.map (batchItem oracle) :=
    chunksOfAux_flatten_map (batchItem oracle) c h messages.length messages
      (le_refl _)
  refine ⟨hmain, ?_, ?_, ?_, ?_⟩
  · rw [hmain, List.length_map]
  · rw [hmain, List.map_map]
    refine List.map_congr_left ?_
    intro m _
    simp [Function.comp, batchItem_messageId]
  · intro chunk hchunk
    exact chunksOfAux_size_le c messages.length messages chunk hchunk
  · have hid := chunksOfAux_flatten_map (id : BatchMessage → BatchMessage) c h
      messages.length messages (le_refl _)
    simpa using hid

/-- C8 witness: three messages, concurrency 2, item 2 failing. -/
theorem batchAnalyze_spec_witness :
    1 ≤ 2 ∧
    batchAnalyze sampleOracle sampleBatch 2 =
      sampleBatch.map (batchItem sampleOracle) :=
  ⟨by decide, (batchAnalyze_spec sampleOracle sampleBatch 2 (by decide)).1⟩

/-- C1: `processLINEMessage` is a total function into
`ProcessingResult` (exceptions of every stage are absorbed by the
embedding's top-level catch, so nothing escapes to the caller), the
elapsed processing time is recorded on every result, and whenever a
stage failure propagates to the catch (missing configuration,
persistence, sheet read/write, or status-update failure — extraction is
pure and the AI stage absorbs its own errors) the result has
`success = false` and carries an error message; with no such failure the
result reports success. -/
theorem processLINEMessage_result_contract (env : CoreEnv)
    (text senderId : String) :
    (processLINEMessage env text senderId).result.processingTime =
      env.elapsed ∧
    (stageFails env = true →
      (processLINEMessage env text senderId).result.success = false ∧
      ((processLINEMessage env text senderId).result.error).isSome = true) ∧
    (stageFails env = false →
      (processLINEMessage env text senderId).result.success = true ∧
      (processLINEMessage env text senderId).result.error = none) := by
  obtain ⟨configOk, enableAI, save, gemini, sheetsRead, sheetsWrite,
    updateOutcome, timestamp, elapsed⟩ := env
  cases configOk <;> cases save <;> cases sheetsRead <;>
    cases sheetsWrite <;> cases updateOutcome <;>
    simp [processLINEMessage, stageFails, isErrE, failResult]

/-- C1 witness: with the configuration guard failing, the returned
result is a structured failure carrying an error message. -/
theorem processLINEMessage_result_contract_witness :
    stageFails envNoConfig = true ∧
    (processLINEMessage envNoConfig "hello" "U1").result.success = false ∧
    ((processLINEMessage envNoConfig "hello" "U1").result.error).isSome =
      true :=
  ⟨by decide,
    ((processLINEMessage_result_contract envNoConfig "hello" "U1").2.1
      (by decide)).1,
    ((processLINEMessage_result_contract envNoConfig "hello" "U1").2.1
      (by decide)).2⟩

/-- C2 counterexample: a run whose sheet write is rejected after the
message was persisted with record id 42 ends with the record still in
status `processing` — the catch path issues no database write at all, so
the status is never updated to `failed`, contrary to the claim. -/
theorem failedStatus_never_written :
    (processLINEMessage envSheetsFail "hello" "U1").result.success = false ∧
    (processLINEMessage envSheetsFail "hello" "U1").dbOps =
      [DbOp.insert "hello" "U1" "processing"] ∧
    finalStatus (processLINEMessage envSheetsFail "hello" "U1").dbOps =
      some "processing" ∧
    finalStatus (processLINEMessage envSheetsFail "hello" "U1").dbOps ≠
      some "failed" := by
  decide

/-- C2 amended: when the pipeline raises an exception after the raw
message was persisted (in particular on a sheet-delivery failure), the
stored record's status is NOT updated — the catch path performs no
database write, so the record keeps its insertion status `processing`
(no `failed` status is ever written) while the caller receives a
`success = false` result. -/
theorem processLINEMessage_failure_keeps_processing (env : CoreEnv)
    (text senderId : String) (id : Nat)
    (hc : env.configOk = true) (hs : env.save = Except.ok id)
    (hf : afterSaveFails env = true) :
    (processLINEMessage env text senderId).result.success = false ∧
    finalStatus (processLINEMessage env text senderId).dbOps =
      some "processing" := by
  obtain ⟨configOk, enableAI, save, gemini, sheetsRead, sheetsWrite,
    updateOutcome, timestamp, elapsed⟩ := env
  simp only at hc hs hf
  subst hc
  subst hs
  cases sheetsRead <;> cases sheetsWrite <;> cases updateOutcome <;>
    simp_all [processLINEMessage, afterSaveFails, isErrE, failResult,
      finalStatus]

/-- C2 amended witness: the rejected sheet write of `envSheetsFail`
leaves record 42 in status `processing`. -/
theorem processLINEMessage_failure_keeps_processing_witness :
    envSheetsFail.configOk = true ∧
    envSheetsFail.save = Except.ok 42 ∧
    afterSaveFails envSheetsFail = true ∧
    finalStatus (processLINEMessage envSheetsFail "hello" "U1").dbOps =
      some "processing" :=
  ⟨rfl, rfl, by decide,
    (processLINEMessage_failure_keeps_processing envSheetsFail "hello" "U1"
      42 rfl rfl (by decide)).2⟩

end LineSheetsBot
